import Mathlib

/-!
Verification of the Charity ledger engine (src/Charity.py).

The application keeps its state in a pandas DataFrame with one row per
transaction.  We embed a row as a structure with the same column names;
the Amount column is modelled as an Option of a rational number: some q
represents a numeric cell, none represents a cell that pandas'
to_numeric coerces to NaN (and fillna then turns into 0).
-/

structure Txn where
  ID : String
  Date : String
  Year : Nat
  Month : Nat
  Type' : String
  Group : String
  Name_Details : String
  Address : String
  Reason : String
  Responsible : String
  Category : String
  SubCategory : String
  Medical : String
  Amount : Option ℚ
deriving DecidableEq

/-- The transaction store: the rows of the application's DataFrame, in order. -/
abbrev Store := List Txn

/-- Numeric coercion of an Amount cell:
pd.to_numeric(..., errors=coerce).fillna(0). -/
def coerceAmount (a : Option ℚ) : ℚ := a.getD 0

/-- One row after the Amount column has been coerced to numeric. -/
def coerceTxn (t : Txn) : Txn := { t with Amount := some (coerceAmount t.Amount) }

/-- The whole DataFrame after df[Amount] = to_numeric(df[Amount]).fillna(0). -/
def coerceStore (df : Store) : Store := df.map coerceTxn

/-- get_fund_balance (Charity.py lines 128-133).  Returns the computed
balance together with the DataFrame afterwards: the method writes the
coerced Amount column back into self.df before summing, so the state is
part of the result.  An empty DataFrame short-circuits to 0 untouched. -/
def get_fund_balance (df : Store) (category : String) : ℚ × Store :=
  if df.isEmpty then (0, df)
  else
    let df2 := coerceStore df
    let inc := ((df2.filter fun t => t.Type' == "Incoming" && t.Category == category).map
      fun t => coerceAmount t.Amount).sum
    let out := ((df2.filter fun t => t.Type' == "Outgoing" && t.Category == category).map
      fun t => coerceAmount t.Amount).sum
    (inc - out, df2)

/-- Sum of (coerced) amounts of the Incoming rows tagged with category c. -/
def incomingSum (df : Store) (c : String) : ℚ :=
  (df.map fun t =>
    if t.Type' == "Incoming" && t.Category == c then coerceAmount t.Amount else 0).sum

/-- Sum of (coerced) amounts of the Outgoing rows tagged with category c. -/
def outgoingSum (df : Store) (c : String) : ℚ :=
  (df.map fun t =>
    if t.Type' == "Outgoing" && t.Category == c then coerceAmount t.Amount else 0).sum


/-- Result of a transaction submission (submit_transaction, lines 400-430):
success shows the Transaction Saved message box, the error cases are the
three messagebox.showerror calls. -/
inductive SubmitResult where
  | success
  | errInvalidAmount
  | errNameRequired
  | errInsufficientFunds
deriving DecidableEq

/-- The form contents read by submit_transaction.  amt is the result of
parsing the amount entry as a number (none: float() raised ValueError);
month is MONTH_NAMES.index(entry) + 1; newId is the fresh uuid. -/
structure Candidate where
  amt : Option ℚ
  year : Nat
  month : Nat
  day : Nat
  ttype : String
  incName : String
  incGroup : String
  incCat : String
  outBen : String
  outAddr : String
  outReason : String
  outResp : String
  outGroup : String
  outFund : String
  outUse : String
  outMed : String
  newId : String
deriving DecidableEq

/-- Two-digit zero padding, as in the 02d format specifier. -/
def pad2 (n : Nat) : String := if n < 10 then "0" ++ toString n else toString n

/-- The date string built by submit_transaction. -/
def mkDateStr (y m d : Nat) : String := toString y ++ "-" ++ pad2 m ++ "-" ++ pad2 d

/-- submit_transaction (lines 400-430).  Returns the user-visible result
and the DataFrame afterwards.  Points mirrored from the code: amount must
parse and be strictly positive; an Incoming row requires a member name; an
Outgoing row is checked against get_fund_balance of its fund source (whose
call rewrites the Amount column, hence the threaded state) and carries no
check at all on the beneficiary name. -/
def submit_transaction (df : Store) (c : Candidate) : SubmitResult × Store :=
  match c.amt with
  | none => (SubmitResult.errInvalidAmount, df)
  | some amt =>
    if amt ≤ 0 then (SubmitResult.errInvalidAmount, df)
    else
      let row : Txn := {
        ID := c.newId, Date := mkDateStr c.year c.month c.day,
        Year := c.year, Month := c.month, Type' := c.ttype, Amount := some amt,
        Name_Details := "", Group := "", Category := "", SubCategory := "",
        Medical := "", Address := "", Reason := "", Responsible := "" }
      if c.ttype == "Incoming" then
        if c.incName == "" then (SubmitResult.errNameRequired, df)
        else (SubmitResult.success,
          df ++ [{ row with Name_Details := c.incName, Group := c.incGroup,
                            Category := c.incCat }])
      else
        let r := get_fund_balance df c.outFund
        if r.1 < amt then (SubmitResult.errInsufficientFunds, r.2)
        else (SubmitResult.success,
          r.2 ++ [{ row with Name_Details := c.outBen, Address := c.outAddr,
                             Reason := c.outReason, Responsible := c.outResp,
                             Group := c.outGroup, Category := c.outFund,
                             SubCategory := c.outUse, Medical := c.outMed }])

/-- Sample row: an Incoming contribution of 100 to the Sadaka fund. -/
def txIncoming100 : Txn := {
  ID := "t1", Date := "2024-01-05", Year := 2024, Month := 1,
  Type' := "Incoming", Group := "Brother", Name_Details := "Ali",
  Address := "", Reason := "", Responsible := "", Category := "Sadaka",
  SubCategory := "", Medical := "", Amount := some 100 }

/-- Sample store holding just txIncoming100, so balance(Sadaka) = 100. -/
def stSadaka : Store := [txIncoming100]

/-- Sample candidate: an Outgoing disbursement of 50 from Sadaka with an
empty beneficiary name. -/
def candOut50NoBen : Candidate := {
  amt := some 50, year := 2024, month := 2, day := 3, ttype := "Outgoing",
  incName := "", incGroup := "Brother", incCat := "Sadaka",
  outBen := "", outAddr := "", outReason := "", outResp := "",
  outGroup := "Brother", outFund := "Sadaka", outUse := "Medical help",
  outMed := "", newId := "t2" }

/-- Sample candidate: an Outgoing disbursement of 5 from Sadaka. -/
def candOut5 : Candidate :=
  { candOut50NoBen with amt := some 5, outBen := "Someone", newId := "t3" }

/-- Sample candidate: an Incoming submission with amount 0. -/
def candInZero : Candidate :=
  { candOut50NoBen with
    amt := some 0
    ttype := "Incoming"
    incName := "Ali"
    newId := "t4" }


/-- Result of save_edit in the universal edit dialog (lines 467-493):
ok shows the Record updated box, invalidFormat is the except branch. -/
inductive EditResult where
  | ok
  | invalidFormat
deriving DecidableEq

/-- The edit-dialog form contents read by save_edit.  amt is the result of
float(e_amt.get()) (none: ValueError); date is the strptime parse of the
date text as (year, month, day) (none: ValueError); dateText is the raw
date text, written verbatim into the Date column. -/
structure EditPatch where
  amt : Option ℚ
  date : Option (Nat × Nat × Nat)
  dateText : String
  name : String
  cat : String
  sub : String
  addr : String
  resp : String
  med : String
  reason : String
deriving DecidableEq

/-- df.at[idx, ...] with idx the first index whose ID matches: rewrite the
first matching row, leave the rest alone. -/
def updateFirst : Store → String → (Txn → Txn) → Store
  | [], _, _ => []
  | t :: ts, i, f => if t.ID == i then f t :: ts else t :: updateFirst ts i f

/-- The per-row field assignments of save_edit: Amount, Date, Year, Month
always; then the Incoming or the Outgoing field set. -/
def applyEdit (recType : String) (p : EditPatch) (a : ℚ) (y m : Nat) (t : Txn) : Txn :=
  let t1 : Txn := { t with Amount := some a, Date := p.dateText, Year := y, Month := m }
  if recType == "Incoming" then
    { t1 with Name_Details := p.name, Category := p.cat }
  else
    { t1 with Name_Details := p.name, Category := p.cat, SubCategory := p.sub,
              Address := p.addr, Responsible := p.resp, Medical := p.med,
              Reason := p.reason }

/-- save_edit (lines 467-493).  Parses the amount, then the date; any
ValueError (including a missing ID at index[0]) lands in the bare except
and leaves the DataFrame untouched; otherwise the patch is written to the
first row with the record ID with no further validation. -/
def save_edit (df : Store) (recID recType : String) (p : EditPatch) :
    EditResult × Store :=
  match p.amt with
  | none => (EditResult.invalidFormat, df)
  | some a =>
    match p.date with
    | none => (EditResult.invalidFormat, df)
    | some (y, m, _d) =>
      if df.any (fun t => t.ID == recID) then
        (EditResult.ok, updateFirst df recID (applyEdit recType p a y m))
      else (EditResult.invalidFormat, df)

/-- Sample patch setting the amount to -50. -/
def patchNeg : EditPatch := {
  amt := some (-50), date := some (2024, 1, 5), dateText := "2024-01-05",
  name := "Ali", cat := "Sadaka", sub := "", addr := "", resp := "",
  med := "", reason := "" }

/-- Sample patch whose date text fails to parse. -/
def patchNoDate : EditPatch := { patchNeg with amt := some 20, date := none }

/-- Which category list is being renamed: the Incoming list cascades into
the Category column, the Outgoing list into the SubCategory column. -/
inductive CatKind where
  | income
  | outgoing
deriving DecidableEq

/-- The DataFrame column the rename cascade touches for this kind. -/
def getCatCol : CatKind → Txn → String
  | CatKind.income, t => t.Category
  | CatKind.outgoing, t => t.SubCategory

/-- Writing that column of one row. -/
def setCatCol : CatKind → Txn → String → Txn
  | CatKind.income, t, v => { t with Category := v }
  | CatKind.outgoing, t, v => { t with SubCategory := v }

/-- The DataFrame rewrite performed by edit_item in the category manager
(lines 195-204): df.loc[df[col] == old, col] = new, guarded by the frame
being nonempty. -/
def edit_item_cascade (df : Store) (kind : CatKind) (oldVal newVal : String) :
    Store :=
  if df.isEmpty then df
  else df.map fun t =>
    if getCatCol kind t == oldVal then setCatCol kind t newVal else t

/-- Sample row whose Amount cell is blank (pandas NaN after load). -/
def txBlankAmount : Txn := { txIncoming100 with ID := "t9", Amount := none }


/-- A member profile, the value stored under the name key in members.json. -/
structure Member where
  id : String
  group : String
  phone : String
  email : String
  address : String
  joined : String
deriving DecidableEq

/-- The member directory: the ordered entries of the members_db dict. -/
abbrev MembersDb := List (String × Member)

/-- members_db.get(name): the profile stored under a name, if any. -/
def dbGet (db : MembersDb) (name : String) : Option Member :=
  (db.find? fun p => p.1 == name).map fun p => p.2

/-- members_db[name] = m: replace the entry in place if the key exists,
otherwise append it (python dict insertion order). -/
def dbSet (db : MembersDb) (name : String) (m : Member) : MembersDb :=
  if db.any (fun p => p.1 == name) then
    db.map fun p => if p.1 == name then (name, m) else p
  else db ++ [(name, m)]

/-- save_member (lines 1035-1066).  name and idText are the already
stripped entry contents; freshId the uuid fallback.  The method is a plain
upsert keyed by the CURRENT name field: the original name recorded by
load_member_to_edit in editing_member_original_name is never consulted, so
no old key is removed and no duplicate check is made. -/
def save_member (db : MembersDb)
    (name idText grp phone email addr joined freshId : String) :
    Option MembersDb :=
  if name = "" then none
  else
    let mid := if idText = "" then ((dbGet db name).map fun m => m.id).getD freshId
               else idText
    some (dbSet db name
      { id := mid, group := grp, phone := phone, email := email,
        address := addr, joined := joined })

/-- Sample profile stored under the key Ali. -/
def memAli : Member := {
  id := "a1", group := "Brother", phone := "017", email := "ali@x",
  address := "Berlin", joined := "2023-05-01" }

/-- Sample directory with the single entry Ali. -/
def dbAli : MembersDb := [("Ali", memAli)]


/-- The MONTH_NAMES constant. -/
def MONTH_NAMES : List String :=
  ["January", "February", "March", "April", "May", "June",
   "July", "August", "September", "October", "November", "December"]

/-- The month numbers the aggregation loops enumerate
(for m_idx, m_name in enumerate(MONTH_NAMES, 1)). -/
def monthsList : List Nat := [1, 2, 3, 4, 5, 6, 7, 8, 9, 10, 11, 12]

/-- The display name of month m. -/
def monthName (m : Nat) : String := MONTH_NAMES.getD (m - 1) ""

/-- The df_a frame of update_analysis_tables (lines 663-668): a copy with
the Amount column coerced, then the optional Year and Group filters
(a combobox value of All means no filter). -/
def anaFilter (df : Store) (yr : Option Nat) (grp : Option String) : Store :=
  let d1 := coerceStore df
  let d2 := match yr with
    | none => d1
    | some y => d1.filter fun t => t.Year == y
  match grp with
  | none => d2
  | some g => d2.filter fun t => t.Group == g

/-- One cell of the income category breakdown (line 681): the Amount sum
over Incoming rows of month m and category cat. -/
def catCell (dfa : Store) (m : Nat) (cat : String) : ℚ :=
  (dfa.map fun t =>
    if t.Type' == "Incoming" && t.Month == m && t.Category == cat
    then coerceAmount t.Amount else 0).sum

/-- One iteration of the table-building loops shared by
update_analysis_tables and generate_matrix_report: emit the row for x
(label, its cells over the columns, their sum), add the cells into the
per-column running totals and the row sum into the running grand total. -/
def tableStep {α β : Type} (cols : List β) (cell : α → β → ℚ)
    (label : α → String) (acc : List (String × List ℚ × ℚ) × List ℚ × ℚ)
    (x : α) : List (String × List ℚ × ℚ) × List ℚ × ℚ :=
  let cells := cols.map (cell x)
  (acc.1 ++ [(label x, cells, cells.sum)],
   List.zipWith (· + ·) acc.2.1 cells,
   acc.2.2 + cells.sum)

/-- The numeric content of the income category breakdown treeview: twelve
month rows (name, per-category cells, row total), then the TOTAL row and
the AVERAGE row (per-category values plus the grand value). -/
structure CatTable where
  monthRows : List (String × List ℚ × ℚ)
  totalRow : List ℚ × ℚ
  avgRow : List ℚ × ℚ
deriving DecidableEq

/-- update_analysis_tables (lines 659-714), restricted to the left table
(tree_ana_cats, the monthly income-category breakdown).  cats is
self.income_cats; col_totals starts at 0 per category and grand_total at
0; the AVERAGE row divides each total by the fixed 12. -/
def update_analysis_tables (df : Store) (yr : Option Nat) (grp : Option String)
    (cats : List String) : CatTable :=
  let dfa := anaFilter df yr grp
  let res := monthsList.foldl (tableStep cats (catCell dfa) monthName)
    ([], cats.map fun _ => 0, 0)
  { monthRows := res.1
    totalRow := (res.2.1, res.2.2)
    avgRow := (res.2.1.map fun x => x / 12, res.2.2 / 12) }

/-- The data frame of generate_matrix_report (lines 1107-1113): Incoming
rows only, Amount coerced, then the optional Year / Group / Category
filters. -/
def matrixFilter (df : Store) (yr : Option Nat) (grp cat : Option String) :
    Store :=
  let d0 := coerceStore (df.filter fun t => t.Type' == "Incoming")
  let d1 := match yr with
    | none => d0
    | some y => d0.filter fun t => t.Year == y
  let d2 := match grp with
    | none => d1
    | some g => d1.filter fun t => t.Group == g
  match cat with
  | none => d2
  | some c => d2.filter fun t => t.Category == c

/-- One cell of the member-by-month pivot (pivot_table with aggfunc sum,
fill_value 0, then row.get(m, 0)): the Amount sum over rows of this
contributor name and month. -/
def pivotCell (d : Store) (name : String) (m : Nat) : ℚ :=
  (d.map fun t =>
    if t.Name_Details == name && t.Month == m then coerceAmount t.Amount
    else 0).sum

/-- The numeric content of the matrix treeview: one row per contributor
plus, when any data passed the filters, the GRAND TOTAL footer (per-month
values and grand value).  none: the method returned before
inserting anything. -/
structure MatrixReport where
  rows : List (String × List ℚ × ℚ)
  footer : Option (List ℚ × ℚ)
deriving DecidableEq

/-- generate_matrix_report (lines 1103-1127).  The contributor names are
the distinct Name_Details values of the filtered frame (pandas sorts the
pivot index; we keep first-occurrence order, which no claim depends on). -/
def generate_matrix_report (df : Store) (yr : Option Nat)
    (grp cat : Option String) : MatrixReport :=
  let d := matrixFilter df yr grp cat
  if d.isEmpty then { rows := [], footer := none }
  else
    let names := (d.map fun t => t.Name_Details).dedup
    let res := names.foldl (tableStep monthsList (pivotCell d) (fun n => n))
      ([], monthsList.map fun _ => 0, 0)
    { rows := res.1, footer := some (res.2.1, res.2.2) }

/-- Sample store holding a single Outgoing row, so that no Incoming row
passes the matrix filters. -/
def stOutgoingOnly : Store :=
  [{ txIncoming100 with ID := "t8", Type' := "Outgoing" }]

-- ===== THEOREMS =====

theorem filter_map_sum_eq_ite_sum (df : List Txn) (p : Txn → Bool) :
    ((df.filter p).map (fun t => coerceAmount t.Amount)).sum
      = (df.map fun t => if p t then coerceAmount t.Amount else 0).sum := by
  induction df with
  | nil => rfl
  | cons t ts ih =>
    by_cases h : p t <;> simp [List.filter_cons, h, ih]

theorem coerceAmount_coerceTxn (t : Txn) :
    coerceAmount (coerceTxn t).Amount = coerceAmount t.Amount := rfl

theorem incomingSum_coerceStore (df : Store) (c : String) :
    incomingSum (coerceStore df) c = incomingSum df c := by
  unfold incomingSum coerceStore
  rw [List.map_map]
  congr 1

theorem outgoingSum_coerceStore (df : Store) (c : String) :
    outgoingSum (coerceStore df) c = outgoingSum df c := by
  unfold outgoingSum coerceStore
  rw [List.map_map]
  congr 1

theorem get_fund_balance_fst (df : Store) (c : String) :
    (get_fund_balance df c).1 = incomingSum df c - outgoingSum df c := by
  unfold get_fund_balance
  by_cases h : df.isEmpty
  · have : df = [] := List.isEmpty_iff.mp h
    subst this
    simp [incomingSum, outgoingSum]
  · simp only [h, if_neg, Bool.false_eq_true, not_false_iff, ite_false]
    rw [filter_map_sum_eq_ite_sum, filter_map_sum_eq_ite_sum]
    show incomingSum (coerceStore df) c - outgoingSum (coerceStore df) c = _
    rw [incomingSum_coerceStore, outgoingSum_coerceStore]

theorem get_fund_balance_snd (df : Store) (c : String) :
    (get_fund_balance df c).2 = if df.isEmpty then df else coerceStore df := by
  unfold get_fund_balance
  split <;> rfl

theorem get_fund_balance_fst_coerceStore (df : Store) (c : String) :
    (get_fund_balance (coerceStore df) c).1 = (get_fund_balance df c).1 := by
  rw [get_fund_balance_fst, get_fund_balance_fst,
    incomingSum_coerceStore, outgoingSum_coerceStore]

theorem get_fund_balance_snd_length (df : Store) (c : String) :
    ((get_fund_balance df c).2).length = df.length := by
  rw [get_fund_balance_snd]
  split
  · rfl
  · exact List.length_map df coerceTxn

theorem get_fund_balance_preserves_balances (df : Store) (c cat : String) :
    (get_fund_balance ((get_fund_balance df c).2) cat).1
      = (get_fund_balance df cat).1 := by
  rw [get_fund_balance_snd]
  split
  · rfl
  · exact get_fund_balance_fst_coerceStore df cat

/-- C1: for every store state and category c the computed fund balance is
the sum of Amount over Incoming rows with Category = c minus the sum over
Outgoing rows with Category = c, and the balance of the empty store is 0. -/
theorem get_fund_balance_correct (df : Store) (c : String) :
    (get_fund_balance df c).1 = incomingSum df c - outgoingSum df c
      ∧ (get_fund_balance ([] : Store) c).1 = 0 :=
  ⟨get_fund_balance_fst df c, rfl⟩

theorem submit_outgoing_reduction (df : Store) (c : Candidate) (a : ℚ)
    (hty : c.ttype = "Outgoing") (ha : c.amt = some a) (hpos : 0 < a)
    (hover : (get_fund_balance df c.outFund).1 < a) :
    submit_transaction df c
      = (SubmitResult.errInsufficientFunds, (get_fund_balance df c.outFund).2) := by
  unfold submit_transaction
  rw [ha]
  simp only [if_neg (not_le.mpr hpos), hty]
  simp only [show (("Outgoing" : String) == "Incoming") = false from rfl,
    Bool.false_eq_true, if_false, if_pos hover]

/-- C2: submitting an Outgoing transaction whose amount exceeds the current
balance of its fund-source category (balance taken before the candidate is
applied) yields the insufficient-funds error, and afterwards the store has
the same transaction count and every category balance is unchanged. -/
theorem submit_outgoing_overdraft_rejected (df : Store) (c : Candidate) (a : ℚ)
    (hty : c.ttype = "Outgoing") (ha : c.amt = some a) (hpos : 0 < a)
    (hover : (get_fund_balance df c.outFund).1 < a) :
    (submit_transaction df c).1 = SubmitResult.errInsufficientFunds
      ∧ ((submit_transaction df c).2).length = df.length
      ∧ ∀ cat : String,
          (get_fund_balance ((submit_transaction df c).2) cat).1
            = (get_fund_balance df cat).1 := by
  rw [submit_outgoing_reduction df c a hty ha hpos hover]
  refine ⟨rfl, get_fund_balance_snd_length df c.outFund, fun cat => ?_⟩
  exact get_fund_balance_preserves_balances df c.outFund cat

/-- Witness for C2 at the empty store and the concrete candidate candOut5. -/
theorem submit_outgoing_overdraft_rejected_witness :
    candOut5.ttype = "Outgoing" ∧ candOut5.amt = some 5 ∧ (0:ℚ) < 5
      ∧ (get_fund_balance [] candOut5.outFund).1 < 5
      ∧ ((submit_transaction [] candOut5).1 = SubmitResult.errInsufficientFunds
        ∧ ((submit_transaction [] candOut5).2).length = ([] : Store).length
        ∧ ∀ cat : String,
            (get_fund_balance ((submit_transaction [] candOut5).2) cat).1
              = (get_fund_balance ([] : Store) cat).1) :=
  ⟨rfl, rfl, by norm_num, by simp [get_fund_balance],
    submit_outgoing_overdraft_rejected [] candOut5 5 rfl rfl (by norm_num)
      (by simp [get_fund_balance])⟩

/-- C5 counterexample: an Outgoing candidate with an EMPTY beneficiary name,
a positive amount and sufficient funds is committed, not rejected — the
code checks an identity field for Incoming only. -/
theorem submit_outgoing_empty_beneficiary_committed :
    candOut50NoBen.outBen = ""
      ∧ (submit_transaction stSadaka candOut50NoBen).1 = SubmitResult.success
      ∧ ((submit_transaction stSadaka candOut50NoBen).2).length = 2 := by
  refine ⟨rfl, ?_, ?_⟩ <;>
  · simp [submit_transaction, get_fund_balance, coerceStore, coerceTxn,
      coerceAmount, stSadaka, txIncoming100, candOut50NoBen,
      String.reduceEq, String.reduceBEq, List.filter]
    norm_num

/-- C5 amended: validation checks that the amount parses as a number and is
strictly positive, and that the member name is present for an Incoming
candidate; each failing check is rejected with its typed error and the
store is unchanged.  (No beneficiary-name check exists for Outgoing.) -/
theorem submit_validation_checks (df : Store) (c : Candidate) :
    (c.amt = none → submit_transaction df c = (SubmitResult.errInvalidAmount, df))
    ∧ (∀ a : ℚ, c.amt = some a → a ≤ 0 →
        submit_transaction df c = (SubmitResult.errInvalidAmount, df))
    ∧ (∀ a : ℚ, c.amt = some a → 0 < a → c.ttype = "Incoming" → c.incName = "" →
        submit_transaction df c = (SubmitResult.errNameRequired, df)) := by
  refine ⟨fun h => ?_, fun a ha hle => ?_, fun a ha hpos hty hname => ?_⟩
  · unfold submit_transaction
    rw [h]
  · unfold submit_transaction
    rw [ha]
    simp only [if_pos hle]
  · unfold submit_transaction
    rw [ha]
    simp only [if_neg (not_le.mpr hpos), hty, hname]
    simp only [show (("Incoming" : String) == "Incoming") = true from rfl,
      show ((("" : String)) == "") = true from rfl, if_true]

/-- Witness for the amended C5 at the concrete candidate candInZero. -/
theorem submit_validation_checks_witness :
    candInZero.amt = some 0 ∧ (0:ℚ) ≤ 0
      ∧ submit_transaction stSadaka candInZero
          = (SubmitResult.errInvalidAmount, stSadaka) :=
  ⟨rfl, le_rfl, (submit_validation_checks stSadaka candInZero).2.1 0 rfl le_rfl⟩

/-- C3 counterexample: the edit dialog commits a patch that makes the
amount negative — save_edit reapplies no invariant beyond parseability, so
the patched store differs from the original and carries Amount -50. -/
theorem save_edit_negative_amount_committed :
    (-50 : ℚ) < 0
      ∧ (save_edit stSadaka "t1" "Incoming" patchNeg).1 = EditResult.ok
      ∧ ((save_edit stSadaka "t1" "Incoming" patchNeg).2).map (fun t => t.Amount)
          = [some (-50)]
      ∧ (save_edit stSadaka "t1" "Incoming" patchNeg).2 ≠ stSadaka := by
  refine ⟨by norm_num, ?_, ?_, ?_⟩
  · simp [save_edit, updateFirst, applyEdit, stSadaka, txIncoming100, patchNeg,
      String.reduceBEq, String.reduceEq]
  · simp [save_edit, updateFirst, applyEdit, stSadaka, txIncoming100, patchNeg,
      String.reduceBEq, String.reduceEq]
  · simp [save_edit, updateFirst, applyEdit, stSadaka, txIncoming100, patchNeg,
      String.reduceBEq, String.reduceEq, Txn.mk.injEq]
    norm_num

/-- C3 amended: an edit parses the patched amount as a number and the date
text as a calendar date; if either parse fails the edit is rejected and
the store is left unchanged, and if both succeed and the id is present the
patch is committed with no further validation (in particular a negative or
overdrawing amount is accepted). -/
theorem save_edit_parse_gate (df : Store) (recID recType : String) (p : EditPatch) :
    (p.amt = none → save_edit df recID recType p = (EditResult.invalidFormat, df))
    ∧ (p.date = none → save_edit df recID recType p = (EditResult.invalidFormat, df))
    ∧ (∀ a : ℚ, ∀ y m d : Nat, p.amt = some a → p.date = some (y, m, d) →
        (∃ t ∈ df, t.ID = recID) →
        (save_edit df recID recType p).1 = EditResult.ok) := by
  refine ⟨fun h => ?_, fun h => ?_, fun a y m d ha hd hex => ?_⟩
  · unfold save_edit
    rw [h]
  · unfold save_edit
    rw [h]
    cases hamt : p.amt <;> rfl
  · unfold save_edit
    rw [ha, hd]
    have hany : df.any (fun t => t.ID == recID) = true := by
      rw [List.any_eq_true]
      obtain ⟨t, ht, hid⟩ := hex
      exact ⟨t, ht, beq_iff_eq.mpr hid⟩
    simp [hany]

/-- Witness for the amended C3: a patch with an unparseable date is
rejected and the store unchanged. -/
theorem save_edit_parse_gate_witness :
    patchNoDate.date = none
      ∧ save_edit stSadaka "t1" "Incoming" patchNoDate
          = (EditResult.invalidFormat, stSadaka) :=
  ⟨rfl, (save_edit_parse_gate stSadaka "t1" "Incoming" patchNoDate).2.1 rfl⟩

theorem getCatCol_setCatCol (kind : CatKind) (t : Txn) (v : String) :
    getCatCol kind (setCatCol kind t v) = v := by
  cases kind <;> rfl

/-- C4: renaming a category from oldVal to a distinct newVal rewrites the
kind's column (Category for the income list, SubCategory for the outgoing
list) of exactly the rows that carried oldVal, and afterwards no row
carries oldVal in that column. -/
theorem rename_category_cascade (df : Store) (kind : CatKind)
    (oldVal newVal : String) (hne : newVal ≠ oldVal) :
    edit_item_cascade df kind oldVal newVal
        = df.map (fun t =>
            if getCatCol kind t = oldVal then setCatCol kind t newVal else t)
      ∧ ∀ t ∈ edit_item_cascade df kind oldVal newVal,
          getCatCol kind t ≠ oldVal := by
  have heq : edit_item_cascade df kind oldVal newVal
      = df.map (fun t =>
          if getCatCol kind t = oldVal then setCatCol kind t newVal else t) := by
    unfold edit_item_cascade
    split
    · rename_i h
      rw [List.isEmpty_iff.mp h]
      rfl
    · simp only [beq_iff_eq]
  refine ⟨heq, ?_⟩
  rw [heq]
  intro t ht
  obtain ⟨s, _, hs⟩ := List.mem_map.mp ht
  by_cases h : getCatCol kind s = oldVal
  · rw [if_pos h] at hs
    rw [← hs, getCatCol_setCatCol]
    exact hne
  · rw [if_neg h] at hs
    rw [← hs]
    exact h

/-- Witness for C4 at the concrete store stSadaka, renaming the income
category Sadaka to Zakat. -/
theorem rename_category_cascade_witness :
    ("Zakat" : String) ≠ "Sadaka"
      ∧ (edit_item_cascade stSadaka CatKind.income "Sadaka" "Zakat"
          = stSadaka.map (fun t =>
              if getCatCol CatKind.income t = "Sadaka"
              then setCatCol CatKind.income t "Zakat" else t)
        ∧ ∀ t ∈ edit_item_cascade stSadaka CatKind.income "Sadaka" "Zakat",
            getCatCol CatKind.income t ≠ "Sadaka") :=
  ⟨by decide,
    rename_category_cascade stSadaka CatKind.income "Sadaka" "Zakat" (by decide)⟩

/-- C9 counterexample: get_fund_balance is not a pure query — on a store
holding a row whose Amount cell is blank it writes the coerced Amount
column back into the store, so the store after the call differs. -/
theorem get_fund_balance_mutates_store :
    (get_fund_balance [txBlankAmount] "Sadaka").2 ≠ [txBlankAmount] := by
  simp [get_fund_balance, coerceStore, coerceTxn, coerceAmount, txBlankAmount,
    txIncoming100, Txn.mk.injEq]

/-- C9 amended: on any store all of whose Amount cells are already
numeric — every state the app itself writes — computing a balance leaves
the store unchanged; in general the query normalizes non-numeric Amount
cells to 0 and touches nothing else. -/
theorem get_fund_balance_pure_on_numeric (df : Store) (c : String)
    (h : ∀ t ∈ df, t.Amount.isSome) :
    (get_fund_balance df c).2 = df := by
  rw [get_fund_balance_snd]
  split
  · rfl
  · unfold coerceStore
    conv_rhs => rw [← List.map_id df]
    apply List.map_congr_left
    intro t ht
    obtain ⟨a, ha⟩ := Option.isSome_iff_exists.mp (h t ht)
    show coerceTxn t = t
    unfold coerceTxn coerceAmount
    rw [ha]
    show ({ t with Amount := some a } : Txn) = t
    rw [← ha]

/-- Witness for the amended C9 at the concrete all-numeric store stSadaka. -/
theorem get_fund_balance_pure_on_numeric_witness :
    (∀ t ∈ stSadaka, t.Amount.isSome)
      ∧ (get_fund_balance stSadaka "Sadaka").2 = stSadaka :=
  ⟨by simp [stSadaka, txIncoming100],
    get_fund_balance_pure_on_numeric stSadaka "Sadaka"
      (by simp [stSadaka, txIncoming100])⟩

/-- C8: evaluating the rename flow at the failing input.  The directory
holds only Ali; the edit form is loaded from Ali (so every field carries
the Ali profile) and saved with the name changed to Bob.  The result keeps
BOTH keys: the profile is copied to Bob while the Ali entry survives, so a
rename does not move the entry (and saving onto an existing key silently
overwrites it rather than failing with a duplicate-name error). -/
theorem save_member_rename_keeps_old_key :
    save_member dbAli "Bob" "a1" "Brother" "017" "ali@x" "Berlin" "2023-05-01"
        "fresh" = some [("Ali", memAli), ("Bob", memAli)]
      ∧ dbGet dbAli "Ali" = some memAli := by
  constructor
  · simp [save_member, dbSet, dbGet, dbAli, memAli, String.reduceBEq,
      String.reduceEq, List.find?, List.any]
  · simp [dbGet, dbAli, List.find?]

theorem zipWith_add_map {α : Type} (l : List α) (f g : α → ℚ) :
    List.zipWith (· + ·) (l.map f) (l.map g) = l.map fun x => f x + g x := by
  induction l with
  | nil => rfl
  | cons x xs ih => simp [ih]

theorem sum_map_add_distrib {α : Type} (l : List α) (f g : α → ℚ) :
    (l.map fun x => f x + g x).sum = (l.map f).sum + (l.map g).sum := by
  induction l with
  | nil => simp
  | cons x xs ih =>
    simp [ih]
    ring

theorem sum_map_swap {α β : Type} (l1 : List α) (l2 : List β) (f : α → β → ℚ) :
    (l1.map fun a => (l2.map (f a)).sum).sum
      = (l2.map fun b => (l1.map fun a => f a b).sum).sum := by
  induction l1 with
  | nil => simp
  | cons x xs ih =>
    simp only [List.map_cons, List.sum_cons, ih]
    induction l2 with
    | nil => simp
    | cons y ys ih2 =>
      simp [ih2]
      ring

theorem tableStep_foldl_rows {α β : Type} (cols : List β) (cell : α → β → ℚ)
    (label : α → String) (xs : List α) (rows0 : List (String × List ℚ × ℚ))
    (ct0 : List ℚ) (g0 : ℚ) :
    (xs.foldl (tableStep cols cell label) (rows0, ct0, g0)).1
      = rows0 ++ xs.map fun x =>
          (label x, cols.map (cell x), (cols.map (cell x)).sum) := by
  induction xs generalizing rows0 ct0 g0 with
  | nil => simp
  | cons x xs ih =>
    simp only [List.foldl_cons, tableStep, List.map_cons]
    rw [ih]
    simp

theorem tableStep_foldl_colTot {α β : Type} (cols : List β) (cell : α → β → ℚ)
    (label : α → String) (xs : List α) (h : β → ℚ)
    (rows0 : List (String × List ℚ × ℚ)) (g0 : ℚ) :
    (xs.foldl (tableStep cols cell label) (rows0, cols.map h, g0)).2.1
      = cols.map fun b => h b + (xs.map fun x => cell x b).sum := by
  induction xs generalizing h rows0 g0 with
  | nil => simp
  | cons x xs ih =>
    simp only [List.foldl_cons, tableStep]
    rw [zipWith_add_map, ih (fun b => h b + cell x b)]
    apply List.map_congr_left
    intro b _
    simp [add_assoc]

theorem tableStep_foldl_grand {α β : Type} (cols : List β) (cell : α → β → ℚ)
    (label : α → String) (xs : List α) (rows0 : List (String × List ℚ × ℚ))
    (ct0 : List ℚ) (g0 : ℚ) :
    (xs.foldl (tableStep cols cell label) (rows0, ct0, g0)).2.2
      = g0 + (xs.map fun x => (cols.map (cell x)).sum).sum := by
  induction xs generalizing rows0 ct0 g0 with
  | nil => simp
  | cons x xs ih =>
    simp only [List.foldl_cons, tableStep, List.map_cons, List.sum_cons]
    rw [ih]
    ring

/-- C6: in the monthly income-category breakdown, under every year/group
filter setting, the month rows carry exactly the per-category month sums;
each printed per-category TOTAL equals the sum of that category's 12
monthly values; the AVERAGE row divides the TOTAL row by the fixed 12;
the printed grand total equals the sum of the 12 per-month row totals;
and the grand AVERAGE is the grand total divided by 12. -/
theorem update_analysis_tables_totals (df : Store) (yr : Option Nat)
    (grp : Option String) (cats : List String) :
    (update_analysis_tables df yr grp cats).monthRows
        = monthsList.map (fun m =>
            (monthName m, cats.map (catCell (anaFilter df yr grp) m),
             (cats.map (catCell (anaFilter df yr grp) m)).sum))
      ∧ (update_analysis_tables df yr grp cats).totalRow.1
          = cats.map (fun c =>
              (monthsList.map fun m => catCell (anaFilter df yr grp) m c).sum)
      ∧ (update_analysis_tables df yr grp cats).avgRow.1
          = (update_analysis_tables df yr grp cats).totalRow.1.map
              (fun x => x / 12)
      ∧ (update_analysis_tables df yr grp cats).totalRow.2
          = ((update_analysis_tables df yr grp cats).monthRows.map
              fun r => r.2.2).sum
      ∧ (update_analysis_tables df yr grp cats).avgRow.2
          = (update_analysis_tables df yr grp cats).totalRow.2 / 12 := by
  simp only [update_analysis_tables]
  refine ⟨?_, ?_, trivial, ?_, trivial⟩
  · rw [tableStep_foldl_rows]
    rfl
  · rw [tableStep_foldl_colTot]
    apply List.map_congr_left
    intro c _
    rw [zero_add]
  · rw [tableStep_foldl_grand, tableStep_foldl_rows, zero_add]
    rfl

theorem sum_map_ite_eq_zero {α : Type} [DecidableEq α] (l : List α) (a : α)
    (c : ℚ) (ha : a ∉ l) :
    (l.map fun x => if a = x then c else 0).sum = 0 := by
  induction l with
  | nil => rfl
  | cons x xs ih =>
    simp only [List.map_cons, List.sum_cons]
    rw [if_neg (fun h => ha (by rw [h]; exact List.mem_cons_self x xs)),
      ih (fun hx => ha (List.mem_cons_of_mem x hx)), add_zero]

theorem sum_map_ite_eq_single {α : Type} [DecidableEq α] (l : List α) (a : α)
    (c : ℚ) (hnd : l.Nodup) (ha : a ∈ l) :
    (l.map fun x => if a = x then c else 0).sum = c := by
  induction l with
  | nil => cases ha
  | cons x xs ih =>
    simp only [List.map_cons, List.sum_cons]
    rcases List.mem_cons.mp ha with h | h
    · rw [if_pos h, sum_map_ite_eq_zero xs a c (h ▸ (List.nodup_cons.mp hnd).1),
        add_zero]
    · have hax : a ≠ x := fun he => (List.nodup_cons.mp hnd).1 (he ▸ h)
      rw [if_neg hax, ih (List.nodup_cons.mp hnd).2 h, zero_add]

theorem grand_total_eq_filtered_sum (d : Store) (names : List String)
    (hnd : names.Nodup) (hcov : ∀ t ∈ d, t.Name_Details ∈ names)
    (hM : ∀ t ∈ d, t.Month ∈ monthsList) :
    (names.map fun n => (monthsList.map fun m => pivotCell d n m).sum).sum
      = (d.map fun t => coerceAmount t.Amount).sum := by
  have h1 : ∀ n : String, (monthsList.map fun m => pivotCell d n m).sum
      = (d.map fun t => (monthsList.map fun m =>
          if t.Name_Details == n && t.Month == m then coerceAmount t.Amount
          else 0).sum).sum := by
    intro n
    unfold pivotCell
    exact sum_map_swap monthsList d _
  simp only [h1]
  rw [sum_map_swap names d _]
  apply congrArg List.sum
  apply List.map_congr_left
  intro t ht
  simp only [Bool.and_eq_true, beq_iff_eq, ite_and]
  have h2 : ∀ n : String, (monthsList.map fun m =>
      if t.Name_Details = n then
        if t.Month = m then coerceAmount t.Amount else 0
      else 0).sum
      = if t.Name_Details = n then coerceAmount t.Amount else 0 := by
    intro n
    by_cases hn : t.Name_Details = n
    · simp only [hn, if_true]
      exact sum_map_ite_eq_single monthsList t.Month _ (by decide) (hM t ht)
    · simp [hn]
  simp only [h2]
  exact sum_map_ite_eq_single names t.Name_Details _ hnd (hcov t ht)

/-- C7: in the member contribution matrix, under every year/group/category
filter setting with a nonempty selection (and months in the calendar
range, as every row the app writes has), the member rows carry the pivot
cells, the GRAND TOTAL footer's per-month values equal the column sums
over the member rows, its row total equals the sum of all member row
totals, and that sum equals the sum of all Incoming amounts passing the
active filters. -/
theorem generate_matrix_report_totals (df : Store) (yr : Option Nat)
    (grp cat : Option String)
    (hne : matrixFilter df yr grp cat ≠ [])
    (hM : ∀ t ∈ matrixFilter df yr grp cat, t.Month ∈ monthsList) :
    (generate_matrix_report df yr grp cat).rows
        = ((matrixFilter df yr grp cat).map fun t => t.Name_Details).dedup.map
            (fun n =>
              (n, monthsList.map (pivotCell (matrixFilter df yr grp cat) n),
               (monthsList.map (pivotCell (matrixFilter df yr grp cat) n)).sum))
      ∧ (generate_matrix_report df yr grp cat).footer
          = some
              (monthsList.map (fun m =>
                ((((matrixFilter df yr grp cat).map
                    fun t => t.Name_Details).dedup.map
                  fun n => pivotCell (matrixFilter df yr grp cat) n m).sum)),
               ((generate_matrix_report df yr grp cat).rows.map
                 fun r => r.2.2).sum)
      ∧ ((generate_matrix_report df yr grp cat).rows.map fun r => r.2.2).sum
          = ((matrixFilter df yr grp cat).map
              fun t => coerceAmount t.Amount).sum := by
  have hie : (matrixFilter df yr grp cat).isEmpty = false :=
    Bool.eq_false_iff.mpr fun h => hne (List.isEmpty_iff.mp h)
  have hrows : (generate_matrix_report df yr grp cat).rows
      = ((matrixFilter df yr grp cat).map fun t => t.Name_Details).dedup.map
          (fun n =>
            (n, monthsList.map (pivotCell (matrixFilter df yr grp cat) n),
             (monthsList.map (pivotCell (matrixFilter df yr grp cat) n)).sum)) := by
    simp only [generate_matrix_report, hie, Bool.false_eq_true, if_false]
    rw [tableStep_foldl_rows]
    rw [List.nil_append]
  have hfoot : (generate_matrix_report df yr grp cat).footer
      = some
          (monthsList.map (fun m =>
            ((((matrixFilter df yr grp cat).map
                fun t => t.Name_Details).dedup.map
              fun n => pivotCell (matrixFilter df yr grp cat) n m).sum)),
           ((((matrixFilter df yr grp cat).map
               fun t => t.Name_Details).dedup.map
             fun n =>
               (monthsList.map (pivotCell (matrixFilter df yr grp cat) n)).sum).sum)) := by
    simp only [generate_matrix_report, hie, Bool.false_eq_true, if_false]
    rw [tableStep_foldl_colTot monthsList
        (pivotCell (matrixFilter df yr grp cat)) (fun n => n)
        (((matrixFilter df yr grp cat).map fun t => t.Name_Details).dedup)
        (fun _ => 0) [] 0,
      tableStep_foldl_grand, zero_add]
    congr 1
    apply congrArg₂ Prod.mk
    · apply List.map_congr_left
      intro m _
      rw [zero_add]
    · rfl
  refine ⟨hrows, ?_, ?_⟩
  · rw [hfoot, hrows, List.map_map]
    rfl
  · rw [hrows, List.map_map]
    exact grand_total_eq_filtered_sum (matrixFilter df yr grp cat)
      (((matrixFilter df yr grp cat).map fun t => t.Name_Details).dedup)
      (List.nodup_dedup _)
      (fun t ht => List.mem_dedup.mpr (List.mem_map_of_mem _ ht)) hM

/-- Witness for C7 at the concrete store stSadaka with all filters off. -/
theorem generate_matrix_report_totals_witness :
    matrixFilter stSadaka none none none ≠ []
      ∧ (∀ t ∈ matrixFilter stSadaka none none none, t.Month ∈ monthsList)
      ∧ ((generate_matrix_report stSadaka none none none).rows.map
            fun r => r.2.2).sum
          = ((matrixFilter stSadaka none none none).map
              fun t => coerceAmount t.Amount).sum :=
  ⟨by decide, by decide,
    (generate_matrix_report_totals stSadaka none none none (by decide)
      (by decide)).2.2⟩

/-- C10: if no Incoming transaction passes the active year/group/category
filters, the matrix view is produced with no rows at all — no member rows
and in particular no GRAND TOTAL footer. -/
theorem generate_matrix_report_empty (df : Store) (yr : Option Nat)
    (grp cat : Option String) (h : matrixFilter df yr grp cat = []) :
    generate_matrix_report df yr grp cat = { rows := [], footer := none } := by
  simp only [generate_matrix_report, h]
  rfl

/-- Witness for C10 at a store whose only row is Outgoing. -/
theorem generate_matrix_report_empty_witness :
    matrixFilter stOutgoingOnly none none none = []
      ∧ generate_matrix_report stOutgoingOnly none none none
          = { rows := [], footer := none } :=
  ⟨by decide,
    generate_matrix_report_empty stOutgoingOnly none none none (by decide)⟩
